import Mathlib

/-!
# Verification of the voice-agent-analytics extraction pipeline

Shallow embedding of the two source files of the repository:

* `extract_thread_messages.py` — the Thread Loader: fetches raw message
  records from the conversation-storage service, reverses them to
  chronological order, joins each record's textual content fragments with
  single spaces, trims surrounding whitespace, and drops records whose
  combined content is empty.

* `extract_pydantic_structured_outputs.py` — the Structured Extractor: a
  declarative analytics schema (`ConversationAnalytics`, a pydantic model
  of ~45 fields over ten closed enumerations) and a wrapper that renders a
  message list into a transcript string, submits it to a completion
  service, and parses the service's result against the schema.

External collaborators (the storage service and the completion service) are
modelled as explicit inputs: the storage result is an `Except` value handed
to the Thread Loader, and the completion service is a function parameter of
the Structured Extractor.  Python exceptions are modelled with `Except`;
pydantic validation is an explicit checking function applied whenever a
record is constructed from a parsed document.
-/

namespace VoiceAnalytics

/-! ## Thread Loader (`extract_thread_messages.py`)

A raw message record from the storage service exposes a role and a list of
content items.  The source inspects each content item by duck-typing:
`hasattr(content_item, 'text')` (then it appends `content_item.text.value`),
and otherwise `content_item.type == 'text'` (then it also accesses
`content_item.text.value`, which — the item having no `text` attribute in
this branch — raises an `AttributeError` that the surrounding handler
re-raises).  A content item is therefore modelled by its optional `text`
attribute (carrying the fragment `text.value`) and its optional `type`
attribute. -/

structure ContentItem where
  text : Option String
  type : Option String
deriving DecidableEq, Repr

structure RawMessage where
  role : String
  content : List ContentItem
deriving DecidableEq, Repr

/-- A normalized message: the `{"role": ..., "content": ...}` dict built by
the Thread Loader. -/
structure Msg where
  role : String
  content : String
deriving DecidableEq, Repr

/-- Python's `str.strip()` on the whitespace characters relevant here:
drop whitespace from both ends of the string. -/
def pyStrip (s : String) : String :=
  ⟨((s.data.dropWhile Char.isWhitespace).reverse.dropWhile Char.isWhitespace).reverse⟩

/-- The inner loop over `message.content`: collect the text fragments, in
order.  An item with no `text` attribute but with `type == 'text'` makes the
source raise (`content_item.text.value` on an item without `text`). -/
def contentFragments : List ContentItem → Except String (List String)
  | [] => .ok []
  | c :: rest =>
    match c.text with
    | some v =>
      match contentFragments rest with
      | .ok tail => .ok (v :: tail)
      | .error e => .error e
    | none =>
      if c.type = some "text" then .error "AttributeError: text"
      else contentFragments rest

/-- The loop body of `extract_thread_messages`, applied to the already
reversed record list: join the fragments with single spaces, strip, and keep
the record only when the result is non-empty. -/
def buildStructured : List RawMessage → Except String (List Msg)
  | [] => .ok []
  | m :: rest =>
    match contentFragments m.content with
    | .error e => .error e
    | .ok parts =>
      match buildStructured rest with
      | .error e => .error e
      | .ok tail =>
        if pyStrip (String.intercalate " " parts) = "" then .ok tail
        else .ok ({ role := m.role, content := pyStrip (String.intercalate " " parts) } :: tail)

/-- `extract_thread_messages`: the storage call's outcome is the input
(`.error` = the call raised; `.ok msgs` = the wire-order record list).  The
`except` handler prints and re-raises, so a failure passes through
unchanged; on success the records are processed in reversed order. -/
def extract_thread_messages (storage : Except String (List RawMessage)) :
    Except String (List Msg) :=
  match storage with
  | .error e => .error e
  | .ok msgs => buildStructured msgs.reverse

/-! Spec-side description of the Thread Loader output (from the spec's
words, for the refinement claim C1): reverse the wire order, give each
record the space-joined, trimmed concatenation of its textual content
fragments, and drop records whose combined trimmed content is empty. -/

/-- The combined trimmed content of one record: its textual fragments joined
by single spaces, surrounding whitespace trimmed. -/
def messageText (m : RawMessage) : String :=
  pyStrip (String.intercalate " " (m.content.filterMap ContentItem.text))

/-- Spec-side Thread Loader output: wire order reversed, empty-content
records absent, each retained entry carrying `messageText`. -/
def threadSpec (raw : List RawMessage) : List Msg :=
  raw.reverse.filterMap fun m =>
    if messageText m = "" then none else some { role := m.role, content := messageText m }

/-- A content item on which the duck-typed inspection does not raise: either
it has a `text` attribute, or it is not claimed to be of type `text`.  Every
record actually returned by the storage service is of this shape (its typed
text items carry a `text` attribute). -/
def GoodItem (c : ContentItem) : Prop :=
  c.text.isSome = true ∨ c.type ≠ some "text"

instance (c : ContentItem) : Decidable (GoodItem c) := by
  unfold GoodItem; infer_instance

theorem contentFragments_good (l : List ContentItem) (h : ∀ c ∈ l, GoodItem c) :
    contentFragments l = .ok (l.filterMap ContentItem.text) := by
  induction l with
  | nil => rfl
  | cons c rest ih =>
    have hc : GoodItem c := h c (List.mem_cons_self c rest)
    have hrest : ∀ x ∈ rest, GoodItem x := fun x hx => h x (List.mem_cons_of_mem c hx)
    rcases hcase : c.text with _ | v
    · rcases hc with hs | ht
      · rw [hcase] at hs; simp at hs
      · simp [contentFragments, hcase, ht, ih hrest]
    · simp [contentFragments, hcase, ih hrest]

theorem buildStructured_good (l : List RawMessage)
    (h : ∀ m ∈ l, ∀ c ∈ m.content, GoodItem c) :
    buildStructured l = .ok (l.filterMap fun m =>
      if messageText m = "" then none
      else some { role := m.role, content := messageText m }) := by
  induction l with
  | nil => rfl
  | cons m rest ih =>
    have hm := contentFragments_good m.content (h m (List.mem_cons_self m rest))
    have hrest : ∀ x ∈ rest, ∀ c ∈ x.content, GoodItem c :=
      fun x hx => h x (List.mem_cons_of_mem m hx)
    by_cases he : messageText m = ""
    · simp [buildStructured, hm, ih hrest, messageText] at he ⊢
      simp [he]
    · simp [buildStructured, hm, ih hrest, messageText] at he ⊢
      simp [he]

/-- A concrete wire-order record list: newest first (an assistant reply with
surrounding whitespace in its fragment, then a whitespace-only record, then
a two-fragment user message, which is the oldest). -/
def rawW : List RawMessage :=
  [ { role := "assistant", content := [{ text := some "  Hi  there ", type := some "text" }] },
    { role := "assistant", content := [{ text := some "   ", type := none }] },
    { role := "user", content := [{ text := some "Hello", type := some "text" },
                                  { text := some "world", type := none }] } ]

/-- C1: for every record list returned by the storage service, the Thread
Loader returns the records in reverse wire order (oldest first), each
retained entry's content being the space-joined concatenation of the
record's textual content fragments with surrounding whitespace trimmed, and
every record whose combined trimmed content is empty being absent. -/
theorem thread_loader_normalizes (msgs : List RawMessage)
    (h : ∀ m ∈ msgs, ∀ c ∈ m.content, GoodItem c) :
    extract_thread_messages (.ok msgs) = .ok (threadSpec msgs) := by
  unfold extract_thread_messages threadSpec
  exact buildStructured_good msgs.reverse (fun m hm => h m (List.mem_reverse.mp hm))

theorem thread_loader_normalizes_witness :
    (∀ m ∈ rawW, ∀ c ∈ m.content, GoodItem c) ∧
    extract_thread_messages (.ok rawW) =
      .ok [{ role := "user", content := "Hello world" },
           { role := "assistant", content := "Hi  there" }] :=
  ⟨by decide, (thread_loader_normalizes rawW (by decide)).trans (by rfl)⟩

/-- C6: a failure raised by the storage-service call inside the Thread
Loader propagates with the original cause attached, and no message list —
in particular no partial one — is returned. -/
theorem thread_loader_propagates_failure (e : String) :
    extract_thread_messages (.error e) = .error e := rfl

/-- C9: the Thread Loader's normalization is deterministic — two
invocations receiving the identical storage result produce identical
ordered message lists. -/
theorem thread_loader_deterministic (r1 r2 : Except String (List RawMessage))
    (h : r1 = r2) :
    extract_thread_messages r1 = extract_thread_messages r2 := by rw [h]

theorem thread_loader_deterministic_witness :
    ((.ok rawW : Except String (List RawMessage)) = .ok rawW) ∧
    extract_thread_messages (.ok rawW) = extract_thread_messages (.ok rawW) :=
  ⟨rfl, thread_loader_deterministic (.ok rawW) (.ok rawW) rfl⟩

/-! ## Structured Extractor schema (`extract_pydantic_structured_outputs.py`)

The ten closed enumerations.  Each carries `val`, the string value of the
pydantic `str`-enum member, and `ofVal`, the inverse lookup used when a
document is parsed against the schema. -/

inductive RequestType where
  | incident | service_request | general_inquiry | out_of_scope
deriving DecidableEq, Repr

def RequestType.val : RequestType → String
  | .incident => "incident"
  | .service_request => "service_request"
  | .general_inquiry => "general_inquiry"
  | .out_of_scope => "out_of_scope"

def RequestType.ofVal (s : String) : Option RequestType :=
  if s = "incident" then some .incident
  else if s = "service_request" then some .service_request
  else if s = "general_inquiry" then some .general_inquiry
  else if s = "out_of_scope" then some .out_of_scope
  else none

inductive IncidentCategory where
  | uniflow_printer | citrix | mfa | ad_account | hardware
  | software_application | other | not_applicable
deriving DecidableEq, Repr

def IncidentCategory.val : IncidentCategory → String
  | .uniflow_printer => "uniflow_printer"
  | .citrix => "citrix"
  | .mfa => "multifactor_authentication"
  | .ad_account => "ad_account"
  | .hardware => "hardware"
  | .software_application => "software_application"
  | .other => "other"
  | .not_applicable => "not_applicable"

def IncidentCategory.ofVal (s : String) : Option IncidentCategory :=
  if s = "uniflow_printer" then some .uniflow_printer
  else if s = "citrix" then some .citrix
  else if s = "multifactor_authentication" then some .mfa
  else if s = "ad_account" then some .ad_account
  else if s = "hardware" then some .hardware
  else if s = "software_application" then some .software_application
  else if s = "other" then some .other
  else if s = "not_applicable" then some .not_applicable
  else none

inductive ServiceRequestType where
  | sap_access | email_shared_drive | business_app_access | network_access
  | general_catalog | other_form | not_applicable
deriving DecidableEq, Repr

def ServiceRequestType.val : ServiceRequestType → String
  | .sap_access => "sap_access"
  | .email_shared_drive => "email_shared_drive"
  | .business_app_access => "business_app_access"
  | .network_access => "network_access"
  | .general_catalog => "general_catalog"
  | .other_form => "other_form"
  | .not_applicable => "not_applicable"

def ServiceRequestType.ofVal (s : String) : Option ServiceRequestType :=
  if s = "sap_access" then some .sap_access
  else if s = "email_shared_drive" then some .email_shared_drive
  else if s = "business_app_access" then some .business_app_access
  else if s = "network_access" then some .network_access
  else if s = "general_catalog" then some .general_catalog
  else if s = "other_form" then some .other_form
  else if s = "not_applicable" then some .not_applicable
  else none

inductive ResolutionMethod where
  | kb_guided_troubleshooting | form_provided | simple_information
  | escalated | no_resolution | not_applicable
deriving DecidableEq, Repr

def ResolutionMethod.val : ResolutionMethod → String
  | .kb_guided_troubleshooting => "kb_guided_troubleshooting"
  | .form_provided => "form_provided"
  | .simple_information => "simple_information"
  | .escalated => "escalated"
  | .no_resolution => "no_resolution"
  | .not_applicable => "not_applicable"

def ResolutionMethod.ofVal (s : String) : Option ResolutionMethod :=
  if s = "kb_guided_troubleshooting" then some .kb_guided_troubleshooting
  else if s = "form_provided" then some .form_provided
  else if s = "simple_information" then some .simple_information
  else if s = "escalated" then some .escalated
  else if s = "no_resolution" then some .no_resolution
  else if s = "not_applicable" then some .not_applicable
  else none

inductive ResolutionStatus where
  | resolved_by_bot | resolved_with_form | escalated_to_human
  | user_abandoned | out_of_scope | bot_failure
deriving DecidableEq, Repr

def ResolutionStatus.val : ResolutionStatus → String
  | .resolved_by_bot => "resolved_by_bot"
  | .resolved_with_form => "resolved_with_form"
  | .escalated_to_human => "escalated_to_human"
  | .user_abandoned => "user_abandoned"
  | .out_of_scope => "out_of_scope"
  | .bot_failure => "bot_failure"

def ResolutionStatus.ofVal (s : String) : Option ResolutionStatus :=
  if s = "resolved_by_bot" then some .resolved_by_bot
  else if s = "resolved_with_form" then some .resolved_with_form
  else if s = "escalated_to_human" then some .escalated_to_human
  else if s = "user_abandoned" then some .user_abandoned
  else if s = "out_of_scope" then some .out_of_scope
  else if s = "bot_failure" then some .bot_failure
  else none

inductive EscalationReason where
  | kb_steps_failed | no_kb_article_found | kb_steps_infeasible
  | user_requested_human | user_frustrated | complex_issue
  | urgent_request | authentication_required | not_escalated
deriving DecidableEq, Repr

def EscalationReason.val : EscalationReason → String
  | .kb_steps_failed => "kb_steps_failed"
  | .no_kb_article_found => "no_kb_article_found"
  | .kb_steps_infeasible => "kb_steps_infeasible"
  | .user_requested_human => "user_requested_human"
  | .user_frustrated => "user_frustrated"
  | .complex_issue => "complex_issue"
  | .urgent_request => "urgent_request"
  | .authentication_required => "authentication_required"
  | .not_escalated => "not_escalated"

def EscalationReason.ofVal (s : String) : Option EscalationReason :=
  if s = "kb_steps_failed" then some .kb_steps_failed
  else if s = "no_kb_article_found" then some .no_kb_article_found
  else if s = "kb_steps_infeasible" then some .kb_steps_infeasible
  else if s = "user_requested_human" then some .user_requested_human
  else if s = "user_frustrated" then some .user_frustrated
  else if s = "complex_issue" then some .complex_issue
  else if s = "urgent_request" then some .urgent_request
  else if s = "authentication_required" then some .authentication_required
  else if s = "not_escalated" then some .not_escalated
  else none

inductive ConversationQuality where
  | excellent | good | acceptable | poor | failed
deriving DecidableEq, Repr

def ConversationQuality.val : ConversationQuality → String
  | .excellent => "excellent"
  | .good => "good"
  | .acceptable => "acceptable"
  | .poor => "poor"
  | .failed => "failed"

def ConversationQuality.ofVal (s : String) : Option ConversationQuality :=
  if s = "excellent" then some .excellent
  else if s = "good" then some .good
  else if s = "acceptable" then some .acceptable
  else if s = "poor" then some .poor
  else if s = "failed" then some .failed
  else none

inductive UserSentiment where
  | very_satisfied | satisfied | neutral | dissatisfied | very_dissatisfied
deriving DecidableEq, Repr

def UserSentiment.val : UserSentiment → String
  | .very_satisfied => "very_satisfied"
  | .satisfied => "satisfied"
  | .neutral => "neutral"
  | .dissatisfied => "dissatisfied"
  | .very_dissatisfied => "very_dissatisfied"

def UserSentiment.ofVal (s : String) : Option UserSentiment :=
  if s = "very_satisfied" then some .very_satisfied
  else if s = "satisfied" then some .satisfied
  else if s = "neutral" then some .neutral
  else if s = "dissatisfied" then some .dissatisfied
  else if s = "very_dissatisfied" then some .very_dissatisfied
  else none

inductive BotFailureType where
  | went_silent | missed_kb_search | multiple_questions
  | wrong_form_provided | protocol_violation | no_failure
deriving DecidableEq, Repr

def BotFailureType.val : BotFailureType → String
  | .went_silent => "went_silent"
  | .missed_kb_search => "missed_kb_search"
  | .multiple_questions => "multiple_questions"
  | .wrong_form_provided => "wrong_form_provided"
  | .protocol_violation => "protocol_violation"
  | .no_failure => "none"

def BotFailureType.ofVal (s : String) : Option BotFailureType :=
  if s = "went_silent" then some .went_silent
  else if s = "missed_kb_search" then some .missed_kb_search
  else if s = "multiple_questions" then some .multiple_questions
  else if s = "wrong_form_provided" then some .wrong_form_provided
  else if s = "protocol_violation" then some .protocol_violation
  else if s = "none" then some .no_failure
  else none

inductive CallEndReason where
  | resolved_normal_close | escalated_close | form_provided_close
  | user_abandoned | user_disconnected | user_requested_end
  | bot_failure | out_of_scope_redirect | urgent_handoff
deriving DecidableEq, Repr

def CallEndReason.val : CallEndReason → String
  | .resolved_normal_close => "resolved_normal_close"
  | .escalated_close => "escalated_close"
  | .form_provided_close => "form_provided_close"
  | .user_abandoned => "user_abandoned"
  | .user_disconnected => "user_disconnected"
  | .user_requested_end => "user_requested_end"
  | .bot_failure => "bot_failure"
  | .out_of_scope_redirect => "out_of_scope_redirect"
  | .urgent_handoff => "urgent_handoff"

def CallEndReason.ofVal (s : String) : Option CallEndReason :=
  if s = "resolved_normal_close" then some .resolved_normal_close
  else if s = "escalated_close" then some .escalated_close
  else if s = "form_provided_close" then some .form_provided_close
  else if s = "user_abandoned" then some .user_abandoned
  else if s = "user_disconnected" then some .user_disconnected
  else if s = "user_requested_end" then some .user_requested_end
  else if s = "bot_failure" then some .bot_failure
  else if s = "out_of_scope_redirect" then some .out_of_scope_redirect
  else if s = "urgent_handoff" then some .urgent_handoff
  else none

/-- The `ConversationAnalytics` pydantic model: a flat record of 45 fields.
Field names, types, optionality and defaults follow the source
declarations; `BotFailureType.no_failure` stands for the member named
`NONE` whose string value is `"none"`. -/
structure ConversationAnalytics where
  request_type : RequestType
  incident_category : IncidentCategory
  service_request_type : ServiceRequestType
  issue_summary : String
  issue_keywords : List String
  resolution_status : ResolutionStatus
  resolution_method : ResolutionMethod
  resolution_provided : Option String
  escalation_reason : EscalationReason
  escalation_turn_number : Option Int
  kb_search_performed : Bool
  kb_article_found : Bool
  kb_steps_attempted : List String
  kb_steps_count : Int
  kb_steps_successful : Bool
  form_provided : Bool
  form_type_provided : Option ServiceRequestType
  form_url_sent : Option String
  correct_form_provided : Bool
  ims_ticket_created : Bool
  ims_ticket_number : Option String
  inc_ticket_created : Bool
  inc_ticket_number : Option String
  total_turns : Int
  user_turns : Int
  assistant_turns : Int
  conversation_ended_naturally : Bool
  user_sentiment : UserSentiment
  satisfaction_score : Int
  user_expressed_satisfaction : Option Bool
  user_expressed_frustration : Bool
  frustration_triggers : List String
  call_end_reason : CallEndReason
  conversation_quality : ConversationQuality
  quality_score : Int
  bot_followed_protocol : Bool
  bot_failure_occurred : Bool
  bot_failure_type : BotFailureType
  protocol_violations : List String
  urgent_request : Bool
  urgent_handled_correctly : Option Bool
  multi_issue_conversation : Bool
  secondary_issues : List String
  third_party_request : Bool
  technical_confusion : Bool
deriving DecidableEq, Repr

/-- The validation constraints the source declares on the model's fields:
`satisfaction_score` and `quality_score` carry `ge=1, le=5`;
`issue_summary` carries `max_length=200`; `resolution_provided` carries
`max_length=300`.  No other field declares a constraint — in particular
the "max 5" on `issue_keywords` appears only in its description text, not
as a declared bound — and no cross-field validator exists in the model. -/
def validAnalytics (d : ConversationAnalytics) : Bool :=
  decide (1 ≤ d.satisfaction_score) && decide (d.satisfaction_score ≤ 5) &&
  decide (1 ≤ d.quality_score) && decide (d.quality_score ≤ 5) &&
  decide (d.issue_summary.length ≤ 200) &&
  (match d.resolution_provided with
   | some s => decide (s.length ≤ 300)
   | none => true)

/-! ## JSON documents

The persisted/transferred representation of a record: a JSON value, at the
level of the abstract document (objects are association lists; textual
encoding concerns such as escaping are below this model). -/

inductive JValue where
  | null : JValue
  | bool : Bool → JValue
  | int : Int → JValue
  | str : String → JValue
  | arr : List JValue → JValue
  | obj : List (String × JValue) → JValue

/-- Look a key up in a JSON object's field list (first occurrence wins). -/
def jGet (key : String) : List (String × JValue) → Option JValue
  | [] => none
  | (k, v) :: rest => if key = k then some v else jGet key rest

def asStr : JValue → Except String String
  | .str s => .ok s
  | _ => .error "expected a string"

def asInt : JValue → Except String Int
  | .int n => .ok n
  | _ => .error "expected an integer"

def asBool : JValue → Except String Bool
  | .bool b => .ok b
  | _ => .error "expected a boolean"

def asStrs : List JValue → Except String (List String)
  | [] => .ok []
  | v :: rest =>
    match asStr v with
    | .error e => .error e
    | .ok s =>
      match asStrs rest with
      | .error e => .error e
      | .ok tail => .ok (s :: tail)

def asStrList : JValue → Except String (List String)
  | .arr xs => asStrs xs
  | _ => .error "expected an array of strings"

/-- Decode a closed string enumeration through its inverse value lookup. -/
def asEnum (ofVal : String → Option α) : JValue → Except String α
  | .str s =>
    match ofVal s with
    | some a => .ok a
    | none => .error "value outside the declared enumeration"
  | _ => .error "expected an enumeration string"

/-- Decode an optional field's value: JSON `null` is `None`. -/
def decOpt (dec : JValue → Except String α) : JValue → Except String (Option α)
  | .null => .ok none
  | v =>
    match dec v with
    | .ok a => .ok (some a)
    | .error e => .error e

/-- A required field: absence is a validation failure. -/
def reqField (doc : List (String × JValue)) (key : String)
    (dec : JValue → Except String α) : Except String α :=
  match jGet key doc with
  | some v => dec v
  | none => .error ("missing required field " ++ key)

/-- A field with a declared default: absence silently yields the default. -/
def defField (doc : List (String × JValue)) (key : String)
    (dec : JValue → Except String α) (dflt : α) : Except String α :=
  match jGet key doc with
  | some v => dec v
  | none => .ok dflt

/-- An `Optional[...] = None` field: absence and `null` both yield `None`. -/
def optField (doc : List (String × JValue)) (key : String)
    (dec : JValue → Except String α) : Except String (Option α) :=
  match jGet key doc with
  | some v => decOpt dec v
  | none => .ok none

/-- Serialize an optional value: `None` becomes JSON `null`. -/
def jOpt (f : α → JValue) : Option α → JValue
  | some a => f a
  | none => .null

/-- Parse the fields of a JSON object against the `ConversationAnalytics`
declarations: required fields must be present, fields with a declared
default (`correct_form_provided = True`, `kb_steps_count = 0`, the five
`default_factory=list` fields) fall back silently when absent, and
`Optional[...] = None` fields accept absence or `null`. -/
def parseAnalyticsFields (doc : List (String × JValue)) :
    Except String ConversationAnalytics := do
  let request_type ← reqField doc "request_type" (asEnum RequestType.ofVal)
  let incident_category ← reqField doc "incident_category" (asEnum IncidentCategory.ofVal)
  let service_request_type ← reqField doc "service_request_type" (asEnum ServiceRequestType.ofVal)
  let issue_summary ← reqField doc "issue_summary" asStr
  let issue_keywords ← defField doc "issue_keywords" asStrList []
  let resolution_status ← reqField doc "resolution_status" (asEnum ResolutionStatus.ofVal)
  let resolution_method ← reqField doc "resolution_method" (asEnum ResolutionMethod.ofVal)
  let resolution_provided ← optField doc "resolution_provided" asStr
  let escalation_reason ← reqField doc "escalation_reason" (asEnum EscalationReason.ofVal)
  let escalation_turn_number ← optField doc "escalation_turn_number" asInt
  let kb_search_performed ← reqField doc "kb_search_performed" asBool
  let kb_article_found ← reqField doc "kb_article_found" asBool
  let kb_steps_attempted ← defField doc "kb_steps_attempted" asStrList []
  let kb_steps_count ← defField doc "kb_steps_count" asInt 0
  let kb_steps_successful ← reqField doc "kb_steps_successful" asBool
  let form_provided ← reqField doc "form_provided" asBool
  let form_type_provided ← optField doc "form_type_provided" (asEnum ServiceRequestType.ofVal)
  let form_url_sent ← optField doc "form_url_sent" asStr
  let correct_form_provided ← defField doc "correct_form_provided" asBool true
  let ims_ticket_created ← reqField doc "ims_ticket_created" asBool
  let ims_ticket_number ← optField doc "ims_ticket_number" asStr
  let inc_ticket_created ← reqField doc "inc_ticket_created" asBool
  let inc_ticket_number ← optField doc "inc_ticket_number" asStr
  let total_turns ← reqField doc "total_turns" asInt
  let user_turns ← reqField doc "user_turns" asInt
  let assistant_turns ← reqField doc "assistant_turns" asInt
  let conversation_ended_naturally ← reqField doc "conversation_ended_naturally" asBool
  let user_sentiment ← reqField doc "user_sentiment" (asEnum UserSentiment.ofVal)
  let satisfaction_score ← reqField doc "satisfaction_score" asInt
  let user_expressed_satisfaction ← optField doc "user_expressed_satisfaction" asBool
  let user_expressed_frustration ← reqField doc "user_expressed_frustration" asBool
  let frustration_triggers ← defField doc "frustration_triggers" asStrList []
  let call_end_reason ← reqField doc "call_end_reason" (asEnum CallEndReason.ofVal)
  let conversation_quality ← reqField doc "conversation_quality" (asEnum ConversationQuality.ofVal)
  let quality_score ← reqField doc "quality_score" asInt
  let bot_followed_protocol ← reqField doc "bot_followed_protocol" asBool
  let bot_failure_occurred ← reqField doc "bot_failure_occurred" asBool
  let bot_failure_type ← reqField doc "bot_failure_type" (asEnum BotFailureType.ofVal)
  let protocol_violations ← defField doc "protocol_violations" asStrList []
  let urgent_request ← reqField doc "urgent_request" asBool
  let urgent_handled_correctly ← optField doc "urgent_handled_correctly" asBool
  let multi_issue_conversation ← reqField doc "multi_issue_conversation" asBool
  let secondary_issues ← defField doc "secondary_issues" asStrList []
  let third_party_request ← reqField doc "third_party_request" asBool
  let technical_confusion ← reqField doc "technical_confusion" asBool
  pure { request_type, incident_category, service_request_type, issue_summary,
         issue_keywords, resolution_status, resolution_method, resolution_provided,
         escalation_reason, escalation_turn_number, kb_search_performed,
         kb_article_found, kb_steps_attempted, kb_steps_count, kb_steps_successful,
         form_provided, form_type_provided, form_url_sent, correct_form_provided,
         ims_ticket_created, ims_ticket_number, inc_ticket_created,
         inc_ticket_number, total_turns, user_turns, assistant_turns,
         conversation_ended_naturally, user_sentiment, satisfaction_score,
         user_expressed_satisfaction, user_expressed_frustration,
         frustration_triggers, call_end_reason, conversation_quality,
         quality_score, bot_followed_protocol, bot_failure_occurred,
         bot_failure_type, protocol_violations, urgent_request,
         urgent_handled_correctly, multi_issue_conversation, secondary_issues,
         third_party_request, technical_confusion }

/-- Parse a JSON document into a `ConversationAnalytics` record, enforcing
the declared field constraints — pydantic validation of a candidate
document, as performed by the completion client when it parses the model's
response against the schema. -/
def parseAnalyticsDoc (j : JValue) : Except String ConversationAnalytics :=
  match j with
  | .obj fields =>
    match parseAnalyticsFields fields with
    | .ok d => if validAnalytics d then .ok d else .error "validation error"
    | .error e => .error e
  | _ => .error "expected a JSON object"

/-- Serialize a record to the persisted JSON document: every field present,
enum fields as their string values, `None` as `null` (the shape of
`model_dump_json`). -/
def serializeAnalytics (d : ConversationAnalytics) : JValue :=
  .obj [
    ("request_type", .str d.request_type.val),
    ("incident_category", .str d.incident_category.val),
    ("service_request_type", .str d.service_request_type.val),
    ("issue_summary", .str d.issue_summary),
    ("issue_keywords", .arr (d.issue_keywords.map JValue.str)),
    ("resolution_status", .str d.resolution_status.val),
    ("resolution_method", .str d.resolution_method.val),
    ("resolution_provided", jOpt JValue.str d.resolution_provided),
    ("escalation_reason", .str d.escalation_reason.val),
    ("escalation_turn_number", jOpt JValue.int d.escalation_turn_number),
    ("kb_search_performed", .bool d.kb_search_performed),
    ("kb_article_found", .bool d.kb_article_found),
    ("kb_steps_attempted", .arr (d.kb_steps_attempted.map JValue.str)),
    ("kb_steps_count", .int d.kb_steps_count),
    ("kb_steps_successful", .bool d.kb_steps_successful),
    ("form_provided", .bool d.form_provided),
    ("form_type_provided", jOpt (fun v => .str v.val) d.form_type_provided),
    ("form_url_sent", jOpt JValue.str d.form_url_sent),
    ("correct_form_provided", .bool d.correct_form_provided),
    ("ims_ticket_created", .bool d.ims_ticket_created),
    ("ims_ticket_number", jOpt JValue.str d.ims_ticket_number),
    ("inc_ticket_created", .bool d.inc_ticket_created),
    ("inc_ticket_number", jOpt JValue.str d.inc_ticket_number),
    ("total_turns", .int d.total_turns),
    ("user_turns", .int d.user_turns),
    ("assistant_turns", .int d.assistant_turns),
    ("conversation_ended_naturally", .bool d.conversation_ended_naturally),
    ("user_sentiment", .str d.user_sentiment.val),
    ("satisfaction_score", .int d.satisfaction_score),
    ("user_expressed_satisfaction", jOpt JValue.bool d.user_expressed_satisfaction),
    ("user_expressed_frustration", .bool d.user_expressed_frustration),
    ("frustration_triggers", .arr (d.frustration_triggers.map JValue.str)),
    ("call_end_reason", .str d.call_end_reason.val),
    ("conversation_quality", .str d.conversation_quality.val),
    ("quality_score", .int d.quality_score),
    ("bot_followed_protocol", .bool d.bot_followed_protocol),
    ("bot_failure_occurred", .bool d.bot_failure_occurred),
    ("bot_failure_type", .str d.bot_failure_type.val),
    ("protocol_violations", .arr (d.protocol_violations.map JValue.str)),
    ("urgent_request", .bool d.urgent_request),
    ("urgent_handled_correctly", jOpt JValue.bool d.urgent_handled_correctly),
    ("multi_issue_conversation", .bool d.multi_issue_conversation),
    ("secondary_issues", .arr (d.secondary_issues.map JValue.str)),
    ("third_party_request", .bool d.third_party_request),
    ("technical_confusion", .bool d.technical_confusion)
  ]

/-! ## The extraction call (`extract_structured_data`) -/

/-- Python's `str.upper()` on the role strings appearing here. -/
def pyUpper (s : String) : String :=
  ⟨s.data.map Char.toUpper⟩

/-- The transcript rendering of `extract_structured_data`: one line
per message, `role.upper()` then a colon and a space then the content,
joined by single newlines. -/
def conversation_text (conversation_messages : List Msg) : String :=
  String.intercalate "\n"
    (conversation_messages.map fun msg => pyUpper msg.role ++ ": " ++ msg.content)

/-- The fixed system instruction of the extraction call. -/
def system_prompt : String :=
  "You are an expert IT helpdesk conversation analyst specializing in:\n    - Detecting bot failures\n    - Acurately assessing user sentiment and satisfaction \n    - Identifying knowledge base gaps and resolution outcomes\n    \n    Use the full 1-5 scoring range. Be conservative - high scores must be earned.\n    \n    Extract all relevant fields according to the schema provided.\n    "

/-- The text of the per-call instruction preceding the embedded transcript. -/
def user_prompt_head : String :=
  "Analyze this IT helpdesk conversation and extract structured information:\n\n    "

/-- The text of the per-call instruction following the embedded transcript. -/
def user_prompt_tail : String :=
  "\n\n    **IMPORTANT NOTES:**\n    - Analyze the ENTIRE conversation to determine the outcome\n    - Pay attention to the LAST few message to understand how it ended\n    - If bot asked a question but never responded after user\x27s answer, that\x27s a bot failure\n    - User saying \"hello\" or \"are you there? after bot question = likely bot went silent\n    - Be conservative with satisfaction/quality score - must be earned\n    - Separate IMS tickets (always created for IT calls) from INC tickets (esclations only)\n    "

/-- The composed per-call instruction embedding a rendered transcript. -/
def user_prompt_of (transcript : String) : String :=
  user_prompt_head ++ transcript ++ user_prompt_tail

/-- `extract_structured_data`: render the transcript, submit both
instructions to the completion service (`complete`, the opaque hosted
model endpoint returning a schema-conformant JSON document or failing),
and parse the returned document against the schema. -/
def extract_structured_data (complete : String → String → Except String JValue)
    (conversation_messages : List Msg) : Except String ConversationAnalytics :=
  match complete system_prompt (user_prompt_of (conversation_text conversation_messages)) with
  | .ok j => parseAnalyticsDoc j
  | .error e => .error e

/-- Spec-side transcript (from the spec's words, for the refinement claim
C2): for each message in order emit the line built from the uppercased
role, a colon and a single space, and the content; join consecutive lines
with exactly one newline character. -/
def transcriptSpec : List Msg → String
  | [] => ""
  | [msg] => pyUpper msg.role ++ ": " ++ msg.content
  | msg :: rest => pyUpper msg.role ++ ": " ++ msg.content ++ "\n" ++ transcriptSpec rest

theorem intercalate_go_append (s : String) (l : List String) :
    ∀ acc1 acc2 : String,
      String.intercalate.go (acc1 ++ acc2) s l = acc1 ++ String.intercalate.go acc2 s l := by
  induction l with
  | nil => intro a b; rfl
  | cons x xs ih =>
    intro a b
    show String.intercalate.go (a ++ b ++ s ++ x) s xs =
      a ++ String.intercalate.go (b ++ s ++ x) s xs
    rw [String.append_assoc a b s, String.append_assoc a (b ++ s) x]
    exact ih a (b ++ s ++ x)

theorem intercalate_cons_cons (s a b : String) (l : List String) :
    String.intercalate s (a :: b :: l) = a ++ s ++ String.intercalate s (b :: l) := by
  show String.intercalate.go (a ++ s ++ b) s l = a ++ s ++ String.intercalate.go b s l
  exact intercalate_go_append s l (a ++ s) b

theorem conversation_text_eq_spec (msgs : List Msg) :
    conversation_text msgs = transcriptSpec msgs := by
  induction msgs with
  | nil => rfl
  | cons m rest ih =>
    cases rest with
    | nil => rfl
    | cons b bs =>
      rw [show transcriptSpec (m :: b :: bs) =
            pyUpper m.role ++ ": " ++ m.content ++ "\n" ++ transcriptSpec (b :: bs) from rfl]
      unfold conversation_text
      rw [show List.map (fun msg => pyUpper msg.role ++ ": " ++ msg.content) (m :: b :: bs)
            = (pyUpper m.role ++ ": " ++ m.content) ::
              (pyUpper b.role ++ ": " ++ b.content) ::
              List.map (fun msg => pyUpper msg.role ++ ": " ++ msg.content) bs from rfl,
          intercalate_cons_cons]
      exact congrArg (fun t => pyUpper m.role ++ ": " ++ m.content ++ "\n" ++ t) ih

/-- A concrete analytics record: a resolved Uniflow printer incident. -/
def recW : ConversationAnalytics where
  request_type := .incident
  incident_category := .uniflow_printer
  service_request_type := .not_applicable
  issue_summary := "User unable to print to Uniflow after PIN reset"
  issue_keywords := ["uniflow", "pin reset", "printer"]
  resolution_status := .resolved_by_bot
  resolution_method := .kb_guided_troubleshooting
  resolution_provided := some "Guided user to reset Uniflow PIN via security settings"
  escalation_reason := .not_escalated
  escalation_turn_number := none
  kb_search_performed := true
  kb_article_found := true
  kb_steps_attempted := ["Reset PIN", "Clear cache"]
  kb_steps_count := 2
  kb_steps_successful := true
  form_provided := false
  form_type_provided := none
  form_url_sent := none
  correct_form_provided := true
  ims_ticket_created := true
  ims_ticket_number := some "IMS123456"
  inc_ticket_created := false
  inc_ticket_number := none
  total_turns := 9
  user_turns := 5
  assistant_turns := 4
  conversation_ended_naturally := true
  user_sentiment := .satisfied
  satisfaction_score := 4
  user_expressed_satisfaction := some true
  user_expressed_frustration := false
  frustration_triggers := []
  call_end_reason := .resolved_normal_close
  conversation_quality := .good
  quality_score := 4
  bot_followed_protocol := true
  bot_failure_occurred := false
  bot_failure_type := .no_failure
  protocol_violations := []
  urgent_request := false
  urgent_handled_correctly := none
  multi_issue_conversation := false
  secondary_issues := []
  third_party_request := false
  technical_confusion := false

/-- `recW` with six issue keywords — one more than the "max 5" the field's
description text announces. -/
def recW6 : ConversationAnalytics :=
  { recW with issue_keywords := ["uniflow", "pin reset", "printer", "driver", "queue", "badge"] }

/-- `recW` reclassified as a general inquiry while keeping a concrete
incident category — the combination the sentinel-consistency property
forbids. -/
def recX : ConversationAnalytics :=
  { recW with request_type := .general_inquiry, incident_category := .citrix }

/-! ## Parsing a serialized record: field-level inverse lemmas -/

@[simp] theorem except_bind_ok {ε α β : Type} (a : α) (f : α → Except ε β) :
    ((Except.ok a : Except ε α) >>= f) = f a := rfl

@[simp] theorem except_map_ok {ε α β : Type} (f : α → β) (a : α) :
    (f <$> (Except.ok a : Except ε α)) = .ok (f a) := rfl

@[simp] theorem asStr_str (s : String) : asStr (.str s) = .ok s := rfl

@[simp] theorem asInt_int (n : Int) : asInt (.int n) = .ok n := rfl

@[simp] theorem asBool_bool (b : Bool) : asBool (.bool b) = .ok b := rfl

@[simp] theorem asEnum_request_type (x : RequestType) :
    asEnum RequestType.ofVal (.str x.val) = .ok x := by cases x <;> rfl

@[simp] theorem asEnum_incident_category (x : IncidentCategory) :
    asEnum IncidentCategory.ofVal (.str x.val) = .ok x := by cases x <;> rfl

@[simp] theorem asEnum_service_request_type (x : ServiceRequestType) :
    asEnum ServiceRequestType.ofVal (.str x.val) = .ok x := by cases x <;> rfl

@[simp] theorem asEnum_resolution_status (x : ResolutionStatus) :
    asEnum ResolutionStatus.ofVal (.str x.val) = .ok x := by cases x <;> rfl

@[simp] theorem asEnum_resolution_method (x : ResolutionMethod) :
    asEnum ResolutionMethod.ofVal (.str x.val) = .ok x := by cases x <;> rfl

@[simp] theorem asEnum_escalation_reason (x : EscalationReason) :
    asEnum EscalationReason.ofVal (.str x.val) = .ok x := by cases x <;> rfl

@[simp] theorem asEnum_conversation_quality (x : ConversationQuality) :
    asEnum ConversationQuality.ofVal (.str x.val) = .ok x := by cases x <;> rfl

@[simp] theorem asEnum_user_sentiment (x : UserSentiment) :
    asEnum UserSentiment.ofVal (.str x.val) = .ok x := by cases x <;> rfl

@[simp] theorem asEnum_bot_failure_type (x : BotFailureType) :
    asEnum BotFailureType.ofVal (.str x.val) = .ok x := by cases x <;> rfl

@[simp] theorem asEnum_call_end_reason (x : CallEndReason) :
    asEnum CallEndReason.ofVal (.str x.val) = .ok x := by cases x <;> rfl

@[simp] theorem asStrs_map (xs : List String) :
    asStrs (xs.map JValue.str) = .ok xs := by
  induction xs with
  | nil => rfl
  | cons x rest ih => simp [asStrs, asStr, ih]

@[simp] theorem asStrList_map (xs : List String) :
    asStrList (.arr (xs.map JValue.str)) = .ok xs := by
  simp [asStrList]

@[simp] theorem decOpt_jOpt_str (o : Option String) :
    decOpt asStr (jOpt JValue.str o) = .ok o := by cases o <;> rfl

@[simp] theorem decOpt_jOpt_int (o : Option Int) :
    decOpt asInt (jOpt JValue.int o) = .ok o := by cases o <;> rfl

@[simp] theorem decOpt_jOpt_bool (o : Option Bool) :
    decOpt asBool (jOpt JValue.bool o) = .ok o := by cases o <;> rfl

@[simp] theorem decOpt_jOpt_srt (o : Option ServiceRequestType) :
    decOpt (asEnum ServiceRequestType.ofVal) (jOpt (fun v => .str v.val) o) = .ok o := by
  cases o with
  | none => rfl
  | some v => cases v <;> rfl

/-- C7: serializing a `ConversationAnalytics` record to the persisted JSON
document (all fields present, enums as string values) and parsing the
document back against the schema yields the original record in all
fields. -/
theorem analytics_roundtrip (d : ConversationAnalytics)
    (h : validAnalytics d = true) :
    parseAnalyticsDoc (serializeAnalytics d) = .ok d := by
  unfold serializeAnalytics parseAnalyticsDoc
  simp [parseAnalyticsFields, reqField, defField, optField, jGet, h]

theorem analytics_roundtrip_witness :
    validAnalytics recW = true ∧
    parseAnalyticsDoc (serializeAnalytics recW) = .ok recW :=
  ⟨by decide, analytics_roundtrip recW (by decide)⟩

/-- Any record a successful parse returns passed the declared validation. -/
theorem parse_ok_valid (j : JValue) (r : ConversationAnalytics)
    (h : parseAnalyticsDoc j = .ok r) : validAnalytics r = true := by
  cases j with
  | obj fields =>
    have h2 : (match parseAnalyticsFields fields with
      | Except.ok d =>
        if validAnalytics d = true then Except.ok d
        else Except.error "validation error"
      | Except.error e => Except.error e) = Except.ok r := h
    cases hp : parseAnalyticsFields fields with
    | ok d =>
      rw [hp] at h2
      have h3 : (if validAnalytics d = true then (Except.ok d : Except String ConversationAnalytics)
        else Except.error "validation error") = Except.ok r := h2
      by_cases hv : validAnalytics d = true
      · rw [if_pos hv] at h3
        injection h3 with h3
        rw [← h3]; exact hv
      · rw [if_neg hv] at h3; exact Except.noConfusion h3
    | error e =>
      rw [hp] at h2
      exact Except.noConfusion (show (Except.error e : Except String ConversationAnalytics) = .ok r from h2)
  | null => exact Except.noConfusion h
  | bool b => exact Except.noConfusion h
  | int n => exact Except.noConfusion h
  | str s => exact Except.noConfusion h
  | arr xs => exact Except.noConfusion h

/-- Any record the Structured Extractor returns passed the declared
validation. -/
theorem extract_ok_valid (complete : String → String → Except String JValue)
    (msgs : List Msg) (r : ConversationAnalytics)
    (h : extract_structured_data complete msgs = .ok r) :
    validAnalytics r = true := by
  unfold extract_structured_data at h
  cases hc : complete system_prompt (user_prompt_of (conversation_text msgs)) with
  | ok j => rw [hc] at h; exact parse_ok_valid j r h
  | error e => rw [hc] at h; exact Except.noConfusion h

/-- The declared validation, unpacked into its individual constraints. -/
theorem valid_unpack (d : ConversationAnalytics) (h : validAnalytics d = true) :
    1 ≤ d.satisfaction_score ∧ d.satisfaction_score ≤ 5 ∧
    1 ≤ d.quality_score ∧ d.quality_score ≤ 5 ∧
    d.issue_summary.length ≤ 200 ∧
    ∀ s, d.resolution_provided = some s → s.length ≤ 300 := by
  unfold validAnalytics at h
  simp only [Bool.and_eq_true, decide_eq_true_eq] at h
  obtain ⟨⟨⟨⟨⟨h1, h2⟩, h3⟩, h4⟩, h5⟩, h6⟩ := h
  refine ⟨h1, h2, h3, h4, h5, fun s hs => ?_⟩
  rw [hs] at h6
  simpa using h6

/-- C2: the transcript submitted to the completion service is built by
emitting, for each message in order, the uppercased role, a colon and a
single space, then the content, consecutive lines joined by exactly one
newline. -/
theorem extractor_submits_spec_transcript
    (complete : String → String → Except String JValue)
    (conversation_messages : List Msg) :
    extract_structured_data complete conversation_messages =
      match complete system_prompt (user_prompt_of (transcriptSpec conversation_messages)) with
      | .ok j => parseAnalyticsDoc j
      | .error e => .error e := by
  unfold extract_structured_data
  rw [conversation_text_eq_spec]

/-- C8: the Structured Extractor accepts the empty message sequence — the
rendered transcript is the empty string (zero lines) and it is still
submitted to the completion service rather than rejected early. -/
theorem extractor_accepts_empty
    (complete : String → String → Except String JValue) :
    conversation_text [] = "" ∧
    extract_structured_data complete [] =
      match complete system_prompt (user_prompt_of "") with
      | .ok j => parseAnalyticsDoc j
      | .error e => .error e :=
  ⟨rfl, rfl⟩

/-- C3: every record the Structured Extractor produces has
`satisfaction_score` and `quality_score` in the inclusive range 1–5 — a
record with a score outside that range fails validation and is never
returned. -/
theorem extractor_scores_in_range
    (complete : String → String → Except String JValue)
    (msgs : List Msg) (r : ConversationAnalytics)
    (h : extract_structured_data complete msgs = .ok r) :
    1 ≤ r.satisfaction_score ∧ r.satisfaction_score ≤ 5 ∧
    1 ≤ r.quality_score ∧ r.quality_score ≤ 5 := by
  obtain ⟨h1, h2, h3, h4, -, -⟩ := valid_unpack r (extract_ok_valid complete msgs r h)
  exact ⟨h1, h2, h3, h4⟩

theorem extractor_scores_in_range_witness :
    extract_structured_data (fun _ _ => .ok (serializeAnalytics recW)) [] = .ok recW ∧
    (1 ≤ recW.satisfaction_score ∧ recW.satisfaction_score ≤ 5 ∧
     1 ≤ recW.quality_score ∧ recW.quality_score ≤ 5) :=
  ⟨by rfl, extractor_scores_in_range (fun _ _ => .ok (serializeAnalytics recW)) [] recW (by rfl)⟩

/-- C4 counterexample: a record whose `issue_keywords` holds six entries —
above the "max 5" announced in the field's description — parses and
validates successfully, so a record violating that bound can be
constructed by the extractor. -/
theorem issue_keywords_bound_counterexample :
    extract_structured_data (fun _ _ => .ok (serializeAnalytics recW6)) [] = .ok recW6 ∧
    ¬ recW6.issue_keywords.length ≤ 5 :=
  ⟨by rfl, by decide⟩

/-- C4 (amended): the declared string bounds are enforced — every record
the Structured Extractor produces has `issue_summary` of at most 200
characters and, when present, `resolution_provided` of at most 300
characters.  The "max 5" on `issue_keywords` is description text only and
is not enforced. -/
theorem string_bounds_enforced
    (complete : String → String → Except String JValue)
    (msgs : List Msg) (r : ConversationAnalytics)
    (h : extract_structured_data complete msgs = .ok r) :
    r.issue_summary.length ≤ 200 ∧
    ∀ s, r.resolution_provided = some s → s.length ≤ 300 := by
  obtain ⟨-, -, -, -, h5, h6⟩ := valid_unpack r (extract_ok_valid complete msgs r h)
  exact ⟨h5, h6⟩

theorem string_bounds_enforced_witness :
    extract_structured_data (fun _ _ => .ok (serializeAnalytics recW)) [] = .ok recW ∧
    (recW.issue_summary.length ≤ 200 ∧
     ∀ s, recW.resolution_provided = some s → s.length ≤ 300) :=
  ⟨by rfl, string_bounds_enforced (fun _ _ => .ok (serializeAnalytics recW)) [] recW (by rfl)⟩

/-- C5 counterexample: a record whose `request_type` is the non-incident
category `general_inquiry` while `incident_category` is the concrete
category `citrix` (not the `not_applicable` sentinel) parses and validates
successfully — the sentinel-consistency rule is not enforced at
construction. -/
theorem sentinel_consistency_counterexample :
    extract_structured_data (fun _ _ => .ok (serializeAnalytics recX)) [] = .ok recX ∧
    recX.request_type = RequestType.general_inquiry ∧
    recX.incident_category ≠ IncidentCategory.not_applicable :=
  ⟨by rfl, rfl, by decide⟩

/-- C5 (amended): the enumerations declare a `not_applicable` sentinel for
cross-category fields, but the schema enforces no cross-field constraint:
validation is invariant under the three classification fields, so every
combination of `request_type`, `incident_category` and
`service_request_type` — sentinel-consistent or not — is constructible. -/
theorem classification_fields_unconstrained (d : ConversationAnalytics)
    (rt : RequestType) (ic : IncidentCategory) (srt : ServiceRequestType) :
    validAnalytics { d with request_type := rt, incident_category := ic,
                            service_request_type := srt } = validAnalytics d := rfl

/-- The persisted document holding only the schema's required fields: every
field with a declared default (`correct_form_provided`, `kb_steps_count`,
the five `default_factory=list` fields) and every `Optional[...] = None`
field is absent. -/
def serializeRequiredOnly (d : ConversationAnalytics) : JValue :=
  .obj [
    ("request_type", .str d.request_type.val),
    ("incident_category", .str d.incident_category.val),
    ("service_request_type", .str d.service_request_type.val),
    ("issue_summary", .str d.issue_summary),
    ("resolution_status", .str d.resolution_status.val),
    ("resolution_method", .str d.resolution_method.val),
    ("escalation_reason", .str d.escalation_reason.val),
    ("kb_search_performed", .bool d.kb_search_performed),
    ("kb_article_found", .bool d.kb_article_found),
    ("kb_steps_successful", .bool d.kb_steps_successful),
    ("form_provided", .bool d.form_provided),
    ("ims_ticket_created", .bool d.ims_ticket_created),
    ("inc_ticket_created", .bool d.inc_ticket_created),
    ("total_turns", .int d.total_turns),
    ("user_turns", .int d.user_turns),
    ("assistant_turns", .int d.assistant_turns),
    ("conversation_ended_naturally", .bool d.conversation_ended_naturally),
    ("user_sentiment", .str d.user_sentiment.val),
    ("satisfaction_score", .int d.satisfaction_score),
    ("user_expressed_frustration", .bool d.user_expressed_frustration),
    ("call_end_reason", .str d.call_end_reason.val),
    ("conversation_quality", .str d.conversation_quality.val),
    ("quality_score", .int d.quality_score),
    ("bot_followed_protocol", .bool d.bot_followed_protocol),
    ("bot_failure_occurred", .bool d.bot_failure_occurred),
    ("bot_failure_type", .str d.bot_failure_type.val),
    ("urgent_request", .bool d.urgent_request),
    ("multi_issue_conversation", .bool d.multi_issue_conversation),
    ("third_party_request", .bool d.third_party_request),
    ("technical_confusion", .bool d.technical_confusion)
  ]

/-- C10: when the parsed result omits every defaulted field, the
constructed record fills them silently — `correct_form_provided` is `true`
(whatever `form_provided` is), `kb_steps_count` is `0`, every list-valued
field is `[]`, and every `Optional` field is `none`. -/
theorem defaults_filled_silently (d : ConversationAnalytics)
    (h1 : 1 ≤ d.satisfaction_score) (h2 : d.satisfaction_score ≤ 5)
    (h3 : 1 ≤ d.quality_score) (h4 : d.quality_score ≤ 5)
    (h5 : d.issue_summary.length ≤ 200) :
    parseAnalyticsDoc (serializeRequiredOnly d) =
      .ok { d with issue_keywords := [], resolution_provided := none,
                   escalation_turn_number := none, kb_steps_attempted := [],
                   kb_steps_count := 0, form_type_provided := none,
                   form_url_sent := none, correct_form_provided := true,
                   ims_ticket_number := none, inc_ticket_number := none,
                   user_expressed_satisfaction := none, frustration_triggers := [],
                   protocol_violations := [], urgent_handled_correctly := none,
                   secondary_issues := [] } := by
  unfold serializeRequiredOnly parseAnalyticsDoc
  simp [parseAnalyticsFields, reqField, defField, optField, jGet, validAnalytics,
        h1, h2, h3, h4, h5]

/-- `recW` with `form_provided := false`: even with no form sent, an input
omitting `correct_form_provided` yields a record claiming the correct form
was provided. -/
def recC : ConversationAnalytics := { recW with form_provided := false }

theorem defaults_filled_silently_witness :
    (1 ≤ recC.satisfaction_score ∧ recC.satisfaction_score ≤ 5 ∧
     1 ≤ recC.quality_score ∧ recC.quality_score ≤ 5 ∧
     recC.issue_summary.length ≤ 200 ∧ recC.form_provided = false) ∧
    parseAnalyticsDoc (serializeRequiredOnly recC) =
      .ok { recC with issue_keywords := [], resolution_provided := none,
                      escalation_turn_number := none, kb_steps_attempted := [],
                      kb_steps_count := 0, form_type_provided := none,
                      form_url_sent := none, correct_form_provided := true,
                      ims_ticket_number := none, inc_ticket_number := none,
                      user_expressed_satisfaction := none, frustration_triggers := [],
                      protocol_violations := [], urgent_handled_correctly := none,
                      secondary_issues := [] } :=
  ⟨by decide,
   defaults_filled_silently recC (by decide) (by decide) (by decide) (by decide) (by decide)⟩

end VoiceAnalytics
